import Mathlib

/-!
Verification of the `zkpdf_lib` claim verifier (src/zkpdf_lib/src/lib.rs).

The library validates a claim request (document bytes, page number, byte
offset, expected substring) and reports whether the substring occurs at the
exact byte offset inside the lossily UTF-8 decoded document text.

Embedding conventions:
- Rust `Vec<u8>` and the byte content of Rust `String` values are `List Nat`
  (each element a byte value); `String.len()` is the list length.
- Rust `usize` and `u32` are `Nat`; the one place where `usize` overflow
  matters (`checked_add`) compares the exact sum against `USIZE_MAX`.
- Rust `Result<T, E>` is `Except E T`.
- A Rust panic is modelled as `Option.none` at the outermost level: a
  function that can panic returns `Option _`, and `none` means the panic
  was reached.
-/

/-- Maximal value of the 64-bit `usize` type. -/
def USIZE_MAX : Nat := 2 ^ 64 - 1

/-- Error enumeration `PDFVerificationError` from src/zkpdf_lib/src/lib.rs. -/
inductive PDFVerificationError where
  | InvalidPageNumber : Nat → PDFVerificationError
  | InvalidOffset : Nat → PDFVerificationError
  | EmptyPDFData : PDFVerificationError
  | SubstringNotFound : PDFVerificationError
  | EmptySubstring : PDFVerificationError
  | OffsetOutOfBounds : PDFVerificationError
deriving DecidableEq, Repr

/-- Input structure `PDFCircuitInput`: raw bytes, page number, byte offset,
and expected substring (kept as its UTF-8 bytes). -/
structure PDFCircuitInput where
  pdf_bytes : List Nat
  page_number : Nat
  offset : Nat
  substring : List Nat
deriving DecidableEq, Repr

/-- Result structure `PDFVerificationProof`. -/
structure PDFVerificationProof where
  verified : Bool
  page_number : Nat
  offset : Nat
  substring : List Nat
  metadata : String
deriving DecidableEq, Repr

deriving instance DecidableEq for Except

/-- Is `b` a UTF-8 continuation byte (0x80..=0xBF)? -/
def isCont (b : Nat) : Bool := decide (0x80 ≤ b ∧ b ≤ 0xBF)

/-- Lower bound for the second byte of a multi-byte UTF-8 sequence whose
lead byte is `b` (Rust `core::str::validations`). -/
def cont2lo (b : Nat) : Nat := if b = 0xE0 then 0xA0 else if b = 0xF0 then 0x90 else 0x80

/-- Upper bound for the second byte of a multi-byte UTF-8 sequence whose
lead byte is `b`. -/
def cont2hi (b : Nat) : Nat := if b = 0xED then 0x9F else if b = 0xF4 then 0x8F else 0xBF

/-- UTF-8 bytes of U+FFFD, the replacement character. -/
def replacement : List Nat := [0xEF, 0xBF, 0xBD]

/-- One step of UTF-8 decoding at lead byte `b` with remaining bytes `rest`:
returns the emitted output bytes (either a valid encoded scalar or one
U+FFFD for the maximal valid prefix of an ill-formed sequence) and how many
bytes of `rest` were consumed in addition to `b`. Ranges follow Rust
`core::str::validations::run_utf8_validation`. -/
def utf8_step (b : Nat) (rest : List Nat) : List Nat × Nat :=
  if b < 0x80 then ([b], 0)
  else if b < 0xC2 then (replacement, 0)
  else if b ≤ 0xDF then
    match rest with
    | [] => (replacement, 0)
    | c1 :: _ => if isCont c1 then ([b, c1], 1) else (replacement, 0)
  else if b ≤ 0xEF then
    match rest with
    | [] => (replacement, 0)
    | c1 :: rest1 =>
      if decide (cont2lo b ≤ c1 ∧ c1 ≤ cont2hi b) then
        match rest1 with
        | [] => (replacement, 1)
        | c2 :: _ => if isCont c2 then ([b, c1, c2], 2) else (replacement, 1)
      else (replacement, 0)
  else if b ≤ 0xF4 then
    match rest with
    | [] => (replacement, 0)
    | c1 :: rest1 =>
      if decide (cont2lo b ≤ c1 ∧ c1 ≤ cont2hi b) then
        match rest1 with
        | [] => (replacement, 1)
        | c2 :: rest2 =>
          if isCont c2 then
            match rest2 with
            | [] => (replacement, 2)
            | c3 :: _ => if isCont c3 then ([b, c1, c2, c3], 3) else (replacement, 2)
          else (replacement, 1)
      else (replacement, 0)
  else (replacement, 0)

/-- Decoding loop. The fuel argument only makes the recursion structural:
every step consumes at least one byte, so fuel equal to the length of the
list (as supplied by `from_utf8_lossy`) never runs out. -/
def lossy_go : Nat → List Nat → List Nat
  | _, [] => []
  | 0, _ :: _ => []
  | fuel + 1, b :: rest =>
    (utf8_step b rest).1 ++ lossy_go fuel (rest.drop (utf8_step b rest).2)

/-- `String::from_utf8_lossy`, producing the UTF-8 bytes of the decoded
string. Each maximal valid prefix of an ill-formed sequence is replaced by
one U+FFFD, resuming at the first offending byte; an incomplete sequence at
the end of input becomes one U+FFFD. -/
def from_utf8_lossy (l : List Nat) : List Nat := lossy_go l.length l

/-- `extract_text_from_pdf`: converts the bytes to a string via
`String::from_utf8_lossy(pdf_bytes).into_owned()`. -/
def extract_text_from_pdf (pdf_bytes : List Nat) : List Nat :=
  from_utf8_lossy pdf_bytes

/-- Rust `str::is_char_boundary`: index 0 is always a boundary, the index
equal to the length is a boundary, and otherwise the byte at the index must
not be a continuation byte. -/
def is_char_boundary (text : List Nat) (i : Nat) : Bool :=
  if i = 0 then true
  else
    match text[i]? with
    | none => decide (i = text.length)
    | some b => decide (b < 0x80 ∨ 0xC0 ≤ b)

/-- `verify_substring_at_offset`: if `offset + substring.len() > text.len()`
the function returns `false`; otherwise it evaluates `&text[offset..offset +
substring.len()] == substring`. Rust string slicing panics (modelled as
`none`) when either end of the range is not a character boundary. The `+`
here is exact: when called from `verify_pdf_claim` the checked add in
`validate_input` has already ruled out `usize` overflow. -/
def verify_substring_at_offset (text : List Nat) (offset : Nat) (substring : List Nat) :
    Option Bool :=
  if text.length < offset + substring.length then
    some false
  else if is_char_boundary text offset && is_char_boundary text (offset + substring.length) then
    some (decide ((text.drop offset).take substring.length = substring))
  else
    none

/-- `validate_input`: the five checks, in source order. `checked_add`
returns `None` exactly when the mathematical sum exceeds `USIZE_MAX`. -/
def validate_input (input : PDFCircuitInput) : Except PDFVerificationError Unit :=
  if input.pdf_bytes.isEmpty then
    Except.error PDFVerificationError.EmptyPDFData
  else if input.substring.isEmpty then
    Except.error PDFVerificationError.EmptySubstring
  else if 10000 < input.page_number then
    Except.error (PDFVerificationError.InvalidPageNumber input.page_number)
  else if input.pdf_bytes.length ≤ input.offset then
    Except.error PDFVerificationError.OffsetOutOfBounds
  else if USIZE_MAX < input.offset + input.substring.length then
    Except.error (PDFVerificationError.InvalidOffset input.offset)
  else
    Except.ok ()

/-- `verify_pdf_claim`: validate, decode, check the substring, and build the
proof value. `none` models a panic inside the substring check. -/
def verify_pdf_claim (input : PDFCircuitInput) :
    Option (Except PDFVerificationError PDFVerificationProof) :=
  match validate_input input with
  | Except.error e => some (Except.error e)
  | Except.ok () =>
    let pdf_text := extract_text_from_pdf input.pdf_bytes
    match verify_substring_at_offset pdf_text input.offset input.substring with
    | none => none
    | some verified =>
      some (Except.ok
        { verified := verified
          page_number := input.page_number
          offset := input.offset
          substring := input.substring
          metadata := "Verified PDF with " ++ Nat.repr input.pdf_bytes.length ++ " bytes" })

/-- A JSON value, as produced by the serde_json serialization of
`PDFCircuitInput`. -/
inductive Json where
  | num : Nat → Json
  | str : List Nat → Json
  | arr : List Json → Json
  | obj : List (String × Json) → Json

/-- Parse a list of JSON values that are all expected to be numbers. -/
def json_nums : List Json → Option (List Nat)
  | [] => some []
  | Json.num n :: rest => Option.map (fun l => n :: l) (json_nums rest)
  | _ => none

/-- Modelled from the spec: the serde JSON serialization of
`PDFCircuitInput` is generated by the external serde / serde_json crates,
which are not under src/; the spec requires that serializing and
deserializing preserve every field exactly. The derive serializes the four
fields in declaration order: the byte vector as an array of numbers, the
two integers as numbers, the substring as a string. -/
def serialize_input (i : PDFCircuitInput) : Json :=
  Json.obj
    [("pdf_bytes", Json.arr (i.pdf_bytes.map Json.num)),
     ("page_number", Json.num i.page_number),
     ("offset", Json.num i.offset),
     ("substring", Json.str i.substring)]

/-- Modelled from the spec: the matching serde deserialization, reading
back the four fields in the layout `serialize_input` produces and failing
on anything else. -/
def deserialize_input : Json → Option PDFCircuitInput
  | Json.obj
      [("pdf_bytes", Json.arr jb), ("page_number", Json.num p),
       ("offset", Json.num o), ("substring", Json.str s)] =>
    Option.map (fun b => PDFCircuitInput.mk b p o s) (json_nums jb)
  | _ => none

example : from_utf8_lossy [0x61, 0x62] = [0x61, 0x62] := by decide
example : from_utf8_lossy [0xC3, 0xA9] = [0xC3, 0xA9] := by decide
example : from_utf8_lossy [0xC3] = replacement := by decide
example : from_utf8_lossy [0xE0, 0xA0] = replacement := by decide
example : from_utf8_lossy [0xF0, 0x80, 0x80] = replacement ++ replacement ++ replacement := by
  decide
example :
    verify_pdf_claim ⟨[0x53, 0x68, 0x6F, 0x72, 0x74], 0, 1000, [0x44]⟩ =
      some (Except.error PDFVerificationError.OffsetOutOfBounds) := by decide

/-- If validation fails, `verify_pdf_claim` propagates exactly that error. -/
theorem verify_pdf_claim_error_of_validate (input : PDFCircuitInput)
    (e : PDFVerificationError) (h : validate_input input = Except.error e) :
    verify_pdf_claim input = some (Except.error e) := by
  simp [verify_pdf_claim, h]

/-- `verify_pdf_claim` returns an error exactly when validation returns
that error: the main path only ever produces `Except.ok` or a panic. -/
theorem verify_pdf_claim_eq_error_iff (input : PDFCircuitInput)
    (e : PDFVerificationError) :
    verify_pdf_claim input = some (Except.error e) ↔
      validate_input input = Except.error e := by
  unfold verify_pdf_claim
  cases hv : validate_input input with
  | error e2 => simp
  | ok u =>
    cases u
    cases hs : verify_substring_at_offset (extract_text_from_pdf input.pdf_bytes)
        input.offset input.substring <;> simp [hs]

/-- Claim C1: the spec states that for every non-empty document, non-empty
substring, page number at most 10000, and offset strictly below the
document byte length, verification returns a result and never fails or
panics. The code violates this: document bytes 0xC3 0xA9 (the two-byte
UTF-8 encoding of one character) with offset 1 and the one-byte substring
0x61 pass all five validation checks, the decoded text keeps both bytes, so
the slice bound 1 + 1 = 2 does not exceed the text length, and the Rust
byte slice of the decoded string then panics because byte index 1 falls
inside the two-byte character and is not a character boundary. The model
evaluates to `none`, the panic outcome. -/
theorem verify_pdf_claim_panics_inside_multibyte_char :
    verify_pdf_claim ⟨[0xC3, 0xA9], 0, 1, [0x61]⟩ = none := by decide


/-- Claim C2: validation checks the five constraints in source order and
the first violated one determines the error: empty document, empty
substring, page number above 10000, offset at or beyond the byte length,
and overflow of offset plus substring byte length; in particular an empty
document yields `EmptyPDFData` whatever the other fields hold. -/
theorem verify_pdf_claim_validation_order (input : PDFCircuitInput) :
    (input.pdf_bytes = [] →
      verify_pdf_claim input = some (Except.error PDFVerificationError.EmptyPDFData)) ∧
    (input.pdf_bytes ≠ [] → input.substring = [] →
      verify_pdf_claim input = some (Except.error PDFVerificationError.EmptySubstring)) ∧
    (input.pdf_bytes ≠ [] → input.substring ≠ [] → 10000 < input.page_number →
      verify_pdf_claim input =
        some (Except.error (PDFVerificationError.InvalidPageNumber input.page_number))) ∧
    (input.pdf_bytes ≠ [] → input.substring ≠ [] → input.page_number ≤ 10000 →
      input.pdf_bytes.length ≤ input.offset →
      verify_pdf_claim input = some (Except.error PDFVerificationError.OffsetOutOfBounds)) ∧
    (input.pdf_bytes ≠ [] → input.substring ≠ [] → input.page_number ≤ 10000 →
      input.offset < input.pdf_bytes.length →
      USIZE_MAX < input.offset + input.substring.length →
      verify_pdf_claim input =
        some (Except.error (PDFVerificationError.InvalidOffset input.offset))) := by
  refine ⟨fun h1 => ?_, fun h1 h2 => ?_, fun h1 h2 h3 => ?_,
    fun h1 h2 h3 h4 => ?_, fun h1 h2 h3 h4 h5 => ?_⟩
  · exact verify_pdf_claim_error_of_validate _ _ (by simp [validate_input, h1])
  · exact verify_pdf_claim_error_of_validate _ _
      (by simp [validate_input, List.isEmpty_iff, h1, h2])
  · exact verify_pdf_claim_error_of_validate _ _
      (by simp [validate_input, List.isEmpty_iff, h1, h2, h3])
  · exact verify_pdf_claim_error_of_validate _ _
      (by simp [validate_input, List.isEmpty_iff, h1, h2, Nat.not_lt.mpr h3, h4])
  · exact verify_pdf_claim_error_of_validate _ _
      (by simp [validate_input, List.isEmpty_iff, h1, h2, Nat.not_lt.mpr h3,
        Nat.not_le.mpr h4, h5])

/-- Witness for claim C2: one concrete input per validation branch. -/
theorem verify_pdf_claim_validation_order_witness :
    verify_pdf_claim ⟨[], 20000, 99, []⟩ =
      some (Except.error PDFVerificationError.EmptyPDFData) ∧
    verify_pdf_claim ⟨[0x61], 0, 0, []⟩ =
      some (Except.error PDFVerificationError.EmptySubstring) ∧
    verify_pdf_claim ⟨[0x61], 10001, 0, [0x62]⟩ =
      some (Except.error (PDFVerificationError.InvalidPageNumber 10001)) ∧
    verify_pdf_claim ⟨[0x61], 0, 1, [0x62]⟩ =
      some (Except.error PDFVerificationError.OffsetOutOfBounds) ∧
    verify_pdf_claim ⟨[0x61], 0, 0, List.replicate (2 ^ 64) 0x62⟩ =
      some (Except.error (PDFVerificationError.InvalidOffset 0)) := by
  refine ⟨(verify_pdf_claim_validation_order _).1 rfl,
    (verify_pdf_claim_validation_order _).2.1 (by decide) rfl,
    (verify_pdf_claim_validation_order _).2.2.1 (by decide) (by decide) (by decide),
    (verify_pdf_claim_validation_order _).2.2.2.1 (by decide) (by decide) (by decide)
      (by decide), ?_⟩
  apply (verify_pdf_claim_validation_order _).2.2.2.2
  · decide
  · exact List.length_pos.mp (by rw [List.length_replicate]; norm_num)
  · decide
  · decide
  · norm_num [List.length_replicate, USIZE_MAX]

/-- Claim C3: for inputs that pass validation, exceeding the decoded-text
bound is not an error: when offset plus the substring byte length exceeds
the byte length of the lossily decoded text, `verify_pdf_claim` returns a
non-error result whose `verified` field is false. -/
theorem verify_pdf_claim_decoded_out_of_range_not_verified (input : PDFCircuitInput)
    (hv : validate_input input = Except.ok ())
    (hlen : (extract_text_from_pdf input.pdf_bytes).length <
      input.offset + input.substring.length) :
    ∃ r, verify_pdf_claim input = some (Except.ok r) ∧ r.verified = false := by
  refine ⟨PDFVerificationProof.mk false input.page_number input.offset input.substring
    ("Verified PDF with " ++ Nat.repr input.pdf_bytes.length ++ " bytes"), ?_, rfl⟩
  simp [verify_pdf_claim, hv, verify_substring_at_offset, hlen]

/-- Witness for claim C3: two document bytes, offset 1, substring of two
bytes, so the range end 3 exceeds the decoded length 2. -/
theorem verify_pdf_claim_decoded_out_of_range_not_verified_witness :
    ∃ r, verify_pdf_claim ⟨[0x61, 0x62], 0, 1, [0x78, 0x79]⟩ = some (Except.ok r) ∧
      r.verified = false :=
  verify_pdf_claim_decoded_out_of_range_not_verified _ (by decide) (by decide)

/-- Claim C4: with a non-empty document, a non-empty substring and a page
number at most 10000, `verify_pdf_claim` returns `OffsetOutOfBounds` if and
only if the offset is at or beyond the document byte length; in particular
an offset equal to the length is an error, not a verified=false result. -/
theorem verify_pdf_claim_offset_oob_iff (input : PDFCircuitInput)
    (h1 : input.pdf_bytes ≠ []) (h2 : input.substring ≠ [])
    (h3 : input.page_number ≤ 10000) :
    verify_pdf_claim input = some (Except.error PDFVerificationError.OffsetOutOfBounds) ↔
      input.pdf_bytes.length ≤ input.offset := by
  rw [verify_pdf_claim_eq_error_iff]
  unfold validate_input
  split_ifs with he1 he2 he3 he4 he5
  · exact absurd (List.isEmpty_iff.mp he1) h1
  · exact absurd (List.isEmpty_iff.mp he2) h2
  · exact absurd he3 (by omega)
  · simp [he4]
  · simp; omega
  · simp; omega

/-- Witness for claim C4: offset exactly at the document byte length. -/
theorem verify_pdf_claim_offset_oob_iff_witness :
    verify_pdf_claim ⟨[0x61, 0x62], 0, 2, [0x78]⟩ =
      some (Except.error PDFVerificationError.OffsetOutOfBounds) :=
  (verify_pdf_claim_offset_oob_iff _ (by decide) (by decide) (by decide)).mpr (by decide)

/-- Claim C5: with a non-empty document and a non-empty substring,
`verify_pdf_claim` returns `InvalidPageNumber` carrying exactly the
offending page number if and only if the page number strictly exceeds
10000; a page number equal to 10000 passes this check. -/
theorem verify_pdf_claim_invalid_page_iff (input : PDFCircuitInput)
    (h1 : input.pdf_bytes ≠ []) (h2 : input.substring ≠ []) :
    (∀ n, verify_pdf_claim input =
        some (Except.error (PDFVerificationError.InvalidPageNumber n)) →
      n = input.page_number) ∧
    (verify_pdf_claim input =
        some (Except.error (PDFVerificationError.InvalidPageNumber input.page_number)) ↔
      10000 < input.page_number) := by
  constructor
  · intro n hn
    rw [verify_pdf_claim_eq_error_iff] at hn
    unfold validate_input at hn
    split_ifs at hn <;> simp_all
  · rw [verify_pdf_claim_eq_error_iff]
    unfold validate_input
    split_ifs with he1 he2 he3 he4 he5
    · exact absurd (List.isEmpty_iff.mp he1) h1
    · exact absurd (List.isEmpty_iff.mp he2) h2
    · simp [he3]
    · simp; omega
    · simp; omega
    · simp; omega

/-- Witness for claim C5: page number 10001 is rejected with the offending
value carried in the error. -/
theorem verify_pdf_claim_invalid_page_iff_witness :
    verify_pdf_claim ⟨[0x61], 10001, 0, [0x62]⟩ =
      some (Except.error (PDFVerificationError.InvalidPageNumber 10001)) :=
  ((verify_pdf_claim_invalid_page_iff _ (by decide) (by decide)).2).mpr (by decide)

/-- Claim C6: the page number does not influence the verification outcome.
Two inputs that agree on document bytes, offset and substring and whose
page numbers are both at most 10000 produce results that agree on the
`verified` value, on the error if any, and on the panic outcome; only the
echoed `page_number` field of the proof record can differ. -/
theorem verify_pdf_claim_page_number_noninterference (b : List Nat) (o : Nat)
    (s : List Nat) (p1 p2 : Nat) (h1 : p1 ≤ 10000) (h2 : p2 ≤ 10000) :
    Option.map (Except.map PDFVerificationProof.verified)
        (verify_pdf_claim ⟨b, p1, o, s⟩) =
      Option.map (Except.map PDFVerificationProof.verified)
        (verify_pdf_claim ⟨b, p2, o, s⟩) := by
  unfold verify_pdf_claim validate_input
  simp only [Nat.not_lt.mpr h1, Nat.not_lt.mpr h2, if_false]
  split_ifs <;> try rfl
  cases hs : verify_substring_at_offset (extract_text_from_pdf b) o s <;> rfl

/-- Witness for claim C6: page numbers 0 and 10000 over the same document,
offset and substring. -/
theorem verify_pdf_claim_page_number_noninterference_witness :
    Option.map (Except.map PDFVerificationProof.verified)
        (verify_pdf_claim ⟨[0x61, 0x62], 0, 0, [0x61]⟩) =
      Option.map (Except.map PDFVerificationProof.verified)
        (verify_pdf_claim ⟨[0x61, 0x62], 10000, 0, [0x61]⟩) :=
  verify_pdf_claim_page_number_noninterference [0x61, 0x62] 0 [0x61] 0 10000
    (by decide) (by decide)

/-- Claim C7: every non-error result echoes the request exactly: its
`page_number`, `offset` and `substring` fields equal those of the input,
and its metadata is the descriptive text built around the document byte
count, so the byte count appears inside the metadata. -/
theorem verify_pdf_claim_result_fields (input : PDFCircuitInput)
    (r : PDFVerificationProof) (h : verify_pdf_claim input = some (Except.ok r)) :
    r.page_number = input.page_number ∧ r.offset = input.offset ∧
    r.substring = input.substring ∧
    r.metadata = "Verified PDF with " ++ Nat.repr input.pdf_bytes.length ++ " bytes" ∧
    ∃ pre post, r.metadata = pre ++ Nat.repr input.pdf_bytes.length ++ post := by
  unfold verify_pdf_claim at h
  cases hv : validate_input input with
  | error e => rw [hv] at h; simp at h
  | ok u =>
    cases u
    rw [hv] at h
    dsimp only at h
    cases hs : verify_substring_at_offset (extract_text_from_pdf input.pdf_bytes)
        input.offset input.substring with
    | none => rw [hs] at h; simp at h
    | some v =>
      rw [hs] at h
      simp only [Option.some.injEq, Except.ok.injEq] at h
      subst h
      exact ⟨rfl, rfl, rfl, rfl, "Verified PDF with ", " bytes", rfl⟩

/-- Witness for claim C7: a successful verification of one byte at offset
zero inside a two-byte document. -/
theorem verify_pdf_claim_result_fields_witness :
    (PDFVerificationProof.mk true 7 0 [0x61] "Verified PDF with 2 bytes").page_number =
        (PDFCircuitInput.mk [0x61, 0x62] 7 0 [0x61]).page_number ∧
    (PDFVerificationProof.mk true 7 0 [0x61] "Verified PDF with 2 bytes").offset =
        (PDFCircuitInput.mk [0x61, 0x62] 7 0 [0x61]).offset ∧
    (PDFVerificationProof.mk true 7 0 [0x61] "Verified PDF with 2 bytes").substring =
        (PDFCircuitInput.mk [0x61, 0x62] 7 0 [0x61]).substring ∧
    (PDFVerificationProof.mk true 7 0 [0x61] "Verified PDF with 2 bytes").metadata =
        "Verified PDF with " ++
          Nat.repr (PDFCircuitInput.mk [0x61, 0x62] 7 0 [0x61]).pdf_bytes.length ++ " bytes" ∧
    ∃ pre post,
      (PDFVerificationProof.mk true 7 0 [0x61] "Verified PDF with 2 bytes").metadata =
        pre ++ Nat.repr (PDFCircuitInput.mk [0x61, 0x62] 7 0 [0x61]).pdf_bytes.length ++ post :=
  verify_pdf_claim_result_fields (PDFCircuitInput.mk [0x61, 0x62] 7 0 [0x61])
    (PDFVerificationProof.mk true 7 0 [0x61] "Verified PDF with 2 bytes") (by decide)

/-- Claim C8: `verify_pdf_claim` never returns the declared but unused
`SubstringNotFound` variant; every returned error is one of `EmptyPDFData`,
`EmptySubstring`, `InvalidPageNumber` (carrying the request page number),
`OffsetOutOfBounds`, or `InvalidOffset` (carrying the request offset). -/
theorem verify_pdf_claim_never_substring_not_found (input : PDFCircuitInput)
    (e : PDFVerificationError) (h : verify_pdf_claim input = some (Except.error e)) :
    e ≠ PDFVerificationError.SubstringNotFound ∧
      (e = PDFVerificationError.EmptyPDFData ∨ e = PDFVerificationError.EmptySubstring ∨
       e = PDFVerificationError.InvalidPageNumber input.page_number ∨
       e = PDFVerificationError.OffsetOutOfBounds ∨
       e = PDFVerificationError.InvalidOffset input.offset) := by
  rw [verify_pdf_claim_eq_error_iff] at h
  unfold validate_input at h
  split_ifs at h <;> simp_all
  all_goals (cases h; simp)

/-- Witness for claim C8: the empty-document input produces the
`EmptyPDFData` error, which is not `SubstringNotFound`. -/
theorem verify_pdf_claim_never_substring_not_found_witness :
    PDFVerificationError.EmptyPDFData ≠ PDFVerificationError.SubstringNotFound ∧
      (PDFVerificationError.EmptyPDFData = PDFVerificationError.EmptyPDFData ∨
       PDFVerificationError.EmptyPDFData = PDFVerificationError.EmptySubstring ∨
       PDFVerificationError.EmptyPDFData =
         PDFVerificationError.InvalidPageNumber (PDFCircuitInput.mk [] 0 0 []).page_number ∨
       PDFVerificationError.EmptyPDFData = PDFVerificationError.OffsetOutOfBounds ∨
       PDFVerificationError.EmptyPDFData =
         PDFVerificationError.InvalidOffset (PDFCircuitInput.mk [] 0 0 []).offset) :=
  verify_pdf_claim_never_substring_not_found (PDFCircuitInput.mk [] 0 0 [])
    PDFVerificationError.EmptyPDFData (by decide)

/-- Claim C9: when validation succeeds, the checked addition has already
established that offset plus the substring byte length fits in `usize`, so
the unchecked `offset + substring.len()` inside
`verify_substring_at_offset` cannot overflow when reached from
`verify_pdf_claim`. -/
theorem validate_input_ok_no_overflow (input : PDFCircuitInput)
    (h : validate_input input = Except.ok ()) :
    input.offset + input.substring.length ≤ USIZE_MAX := by
  unfold validate_input at h
  split_ifs at h
  simp_all

/-- Witness for claim C9: a one-byte document and one-byte substring pass
validation and their offset plus length is far below the bound. -/
theorem validate_input_ok_no_overflow_witness :
    (PDFCircuitInput.mk [0x61] 0 0 [0x62]).offset +
        (PDFCircuitInput.mk [0x61] 0 0 [0x62]).substring.length ≤ USIZE_MAX :=
  validate_input_ok_no_overflow (PDFCircuitInput.mk [0x61] 0 0 [0x62]) (by decide)

/-- Helper for claim C10: parsing back a list of serialized numbers is the
identity. -/
theorem json_nums_map_num (l : List Nat) : json_nums (l.map Json.num) = some l := by
  induction l with
  | nil => rfl
  | cons a t ih => simp [json_nums, ih]

/-- Claim C10: serializing a request and deserializing the result yields
the original request, every field preserved exactly. -/
theorem serialize_input_roundtrip (i : PDFCircuitInput) :
    deserialize_input (serialize_input i) = some i := by
  cases i with
  | mk b p o s => simp [serialize_input, deserialize_input, json_nums_map_num]
